import Mathlib

/-!
Verification of the chat client's session/message state machine and
streaming-update protocol (src/App.tsx, src/types.ts, src/constants.ts).

JavaScript strings are modelled as lists of characters (`JStr`), so that
slicing (`String.prototype.slice`), length comparison and concatenation
become `List.take`, `List.length` and `List.append`.  The `Record<string,
ChatSession>` object of `AppState.sessions` is modelled as an association
list; `{ ...prev.sessions, [k]: v }` replaces the first entry keyed `k` in
place (keys of a JS record are unique) or appends a fresh entry at the end.
React's `useState` cells (`state`, `isGenerating`, `error`) are collected in
a single `ControllerState` record, and every handler is a pure function
from state to state.  The streaming callbacks dereference the last element
of a possibly-empty array (`msgs[msgs.length - 1]` followed by a field
access); that partial access is modelled by `Option`-valued updaters which
return `none` exactly when the array is empty.
-/

/-- JavaScript strings, as sequences of characters. -/
abbrev JStr := List Char

/-- `Role` enum from src/types.ts (`USER = 'user'`, `MODEL = 'model'`). -/
inductive Role where
  | user
  | model
deriving DecidableEq, Repr

/-- `Attachment` from src/types.ts: `mimeType`, `url` (display), `data` (base64). -/
structure Attachment where
  mimeType : JStr
  url : JStr
  data : JStr
deriving DecidableEq, Repr

/-- `Message` from src/types.ts.  The optional JS fields `attachments` and
`isStreaming` are given their defaulted meanings (`[]`, `false`): the code
only ever tests them for truthiness.  The `groundingMetadata` field is never
written or read anywhere in the modelled code and is omitted. -/
structure Message where
  id : JStr
  role : Role
  text : JStr
  attachments : List Attachment
  isStreaming : Bool
  timestamp : Nat
deriving DecidableEq, Repr

/-- `ChatSession` from src/types.ts. -/
structure ChatSession where
  id : JStr
  title : JStr
  messages : List Message
  updatedAt : Nat
deriving DecidableEq, Repr

/-- `ModelId` enum from src/types.ts. -/
inductive ModelId where
  | flash
  | pro
  | flashLite
deriving DecidableEq, Repr

/-- `UserProfile` from src/types.ts. -/
structure UserProfile where
  firstName : JStr
  email : JStr
deriving DecidableEq, Repr

/-- `AppState` from src/types.ts; `sessions : Record<string, ChatSession>`
is an association list from session id to session. -/
structure AppState where
  user : Option UserProfile
  currentSessionId : Option JStr
  sessions : List (JStr × ChatSession)
  selectedModel : ModelId
  sidebarOpen : Bool
deriving DecidableEq, Repr

/-- The three React state cells of the App component (src/App.tsx lines
15-24): the `AppState` object plus the `isGenerating` flag and the error
banner text (`null` when no banner is shown). -/
structure ControllerState where
  app : AppState
  isGenerating : Bool
  error : Option JStr
deriving DecidableEq, Repr

/-- Reading `prev.sessions[id]` from the JS record: first entry keyed `id`. -/
def lookupSession : List (JStr × ChatSession) → JStr → Option ChatSession
  | [], _ => none
  | (k, v) :: rest, c => if k = c then some v else lookupSession rest c

/-- Writing `{ ...prev.sessions, [k]: v }` on the JS record: the (unique)
existing entry keyed `k` keeps its position and gets value `v`; a missing
key is appended at the end. -/
def setSession : List (JStr × ChatSession) → JStr → ChatSession → List (JStr × ChatSession)
  | [], k, v => [(k, v)]
  | (k', v') :: rest, k, v =>
      if k' = k then (k, v) :: rest else (k', v') :: setSession rest k v

/-- `updateCurrentSession` from src/App.tsx lines 68-79, generalised over the
session id captured by the closure (`state.currentSessionId` at render
time); the no-op branches are the `if (!state.currentSessionId) return` guard
and the defensive `if (!session) return prev` check.  The new mapping is
keyed by `session.id`, exactly as `{ ...prev.sessions, [session.id]: ... }`. -/
def updateSessionAt (cid : Option JStr) (ap : AppState)
    (updater : ChatSession → ChatSession) : AppState :=
  match cid with
  | none => ap
  | some c =>
    match lookupSession ap.sessions c with
    | none => ap
    | some session =>
      { ap with sessions := setSession ap.sessions session.id (updater session) }

/-- `updateCurrentSession` as called synchronously, where the captured id is
the current one. -/
def updateCurrentSession (ap : AppState) (updater : ChatSession → ChatSession) : AppState :=
  updateSessionAt ap.currentSessionId ap updater

/-- `updateCurrentSession` applied to one of the streaming-callback closures,
whose body dereferences `msgs[msgs.length - 1]` and hence can fail on an
empty array: the updater is `Option`-valued and the whole update is `none`
exactly when the updater's dereference fails. -/
def updateSessionAtF (cid : Option JStr) (ap : AppState)
    (updater : ChatSession → Option ChatSession) : Option AppState :=
  match cid with
  | none => some ap
  | some c =>
    match lookupSession ap.sessions c with
    | none => some ap
    | some session =>
      (updater session).map fun s2 =>
        { ap with sessions := setSession ap.sessions session.id s2 }

/-- `createNewSession` from src/App.tsx lines 51-66; `newId` stands for the
generated uuid and `now` for `Date.now()`. -/
def createNewSession (st : ControllerState) (newId : JStr) (now : Nat) : ControllerState :=
  { st with app :=
    { st.app with
      currentSessionId := some newId
      sessions := setSession st.app.sessions newId
        { id := newId, title := "New Chat".toList, messages := [], updatedAt := now }
      sidebarOpen := false } }

/-- `onSelectSession` from src/App.tsx line 247: sets `currentSessionId`
unconditionally, with no membership check on `sessions`. -/
def selectSession (st : ControllerState) (sid : JStr) : ControllerState :=
  { st with app := { st.app with currentSessionId := some sid } }

/-- The model-picker click handler from src/App.tsx line 281. -/
def selectModel (st : ControllerState) (m : ModelId) : ControllerState :=
  { st with app := { st.app with selectedModel := m } }

/-- The sidebar toggle from src/App.tsx line 246. -/
def toggleSidebar (st : ControllerState) : ControllerState :=
  { st with app := { st.app with sidebarOpen := !st.app.sidebarOpen } }

/-- JS whitespace test for `String.prototype.trim` (common cases). -/
def isJsSpace (c : Char) : Bool := c = ' ' ∨ c = '\t' ∨ c = '\n' ∨ c = '\r'

/-- `String.prototype.trim`. -/
def trimJs (l : JStr) : JStr :=
  ((l.dropWhile isJsSpace).reverse.dropWhile isJsSpace).reverse

/-- `handleOnboardingSubmit` from src/App.tsx lines 81-92. -/
def submitOnboarding (st : ControllerState) (name email : JStr) : ControllerState :=
  if trimJs name ≠ [] ∧ trimJs email ≠ [] then
    { st with app :=
      { st.app with user := some { firstName := trimJs name, email := trimJs email } } }
  else st

/-- The initial state of the App component (src/App.tsx lines 15-24):
no user, no session, empty session map, default model, no banner. -/
def initialState : ControllerState :=
  { app :=
    { user := none
      currentSessionId := none
      sessions := []
      selectedModel := ModelId.flash
      sidebarOpen := false }
    isGenerating := false
    error := none }

/-- The user message built at src/App.tsx lines 101-108; `uid` stands for
the generated uuid, `now` for `Date.now()`.  No `isStreaming` field is set,
so it defaults to false. -/
def userMessageOf (text : JStr) (atts : List Attachment) (uid : JStr) (now : Nat) : Message :=
  { id := uid, role := Role.user, text := text, attachments := atts
    isStreaming := false, timestamp := now }

/-- The assistant placeholder built at src/App.tsx lines 126-133: empty
text, `isStreaming: true`, no attachments field. -/
def placeholderOf (aid : JStr) (now : Nat) : Message :=
  { id := aid, role := Role.model, text := [], attachments := []
    isStreaming := true, timestamp := now }

/-- The first updater of `handleSendMessage` (src/App.tsx lines 111-123):
rewrites the title from `text.slice(0, 30) + (text.length > 30 ? '...' : '')`
when the session has no messages yet, then appends the user message and
refreshes `updatedAt`. -/
def appendUserUpdater (text : JStr) (um : Message) (now : Nat) (s : ChatSession) : ChatSession :=
  { s with
    title := if s.messages.length = 0
      then text.take 30 ++ (if 30 < text.length then "...".toList else [])
      else s.title
    messages := s.messages ++ [um]
    updatedAt := now }

/-- The second updater of `handleSendMessage` (src/App.tsx lines 135-138):
appends the streaming placeholder. -/
def appendPlaceholderUpdater (ph : Message) (s : ChatSession) : ChatSession :=
  { s with messages := s.messages ++ [ph] }

/-- The synchronous part of `handleSendMessage` (src/App.tsx lines 96-143):
early return when no session is current; otherwise clear the error banner,
raise the generating flag, append the user message (updating the title of a
fresh session) and append the streaming placeholder — both before
`generateResponseStream` is invoked.  The returned Bool records whether the
generation capability is invoked.  Both `updateCurrentSession` calls read
the session id captured by the closure at invocation time. -/
def handleSendMessage (st : ControllerState) (text : JStr) (atts : List Attachment)
    (uid aid : JStr) (now : Nat) : ControllerState × Bool :=
  match st.app.currentSessionId with
  | none => (st, false)
  | some _ =>
    let st1 : ControllerState := { st with error := none, isGenerating := true }
    let app1 := updateSessionAt st.app.currentSessionId st1.app
      (appendUserUpdater text (userMessageOf text atts uid now) now)
    let app2 := updateSessionAt st.app.currentSessionId app1
      (appendPlaceholderUpdater (placeholderOf aid now))
    ({ st1 with app := app2 }, true)

/-- The `onChunk` closure body (src/App.tsx lines 149-159): copy the
messages array, dereference its last element (`none` models the failing
dereference `msgs[msgs.length - 1].id` on an empty array), and append the
chunk text to it if and only if its id equals the captured placeholder id;
on a mismatch the array is re-installed unchanged. -/
def chunkUpdater (aid chunk : JStr) (s : ChatSession) : Option ChatSession :=
  match s.messages.getLast? with
  | none => none
  | some lastMsg =>
    if lastMsg.id = aid then
      some { s with messages :=
        s.messages.dropLast ++ [{ lastMsg with text := lastMsg.text ++ chunk }] }
    else
      some s

/-- The `onComplete` closure's updater (src/App.tsx lines 163-168): set the
last message's `isStreaming` to false, with no id check and no emptiness
check. -/
def completeUpdater (s : ChatSession) : Option ChatSession :=
  match s.messages.getLast? with
  | none => none
  | some lastMsg =>
    some { s with messages := s.messages.dropLast ++ [{ lastMsg with isStreaming := false }] }

/-- The apology text substituted at src/App.tsx line 178. -/
def apologyText : JStr := "Sorry, I encountered an error processing your request.".toList

/-- The generic banner fallback at src/App.tsx line 173. -/
def fallbackText : JStr := "Something went wrong".toList

/-- `err.message || "Something went wrong"`: a missing message (`none`,
JS `undefined`) and the empty string are both falsy and select the
fallback. -/
def errBanner (m : Option JStr) : JStr :=
  match m with
  | none => fallbackText
  | some t => if t = [] then fallbackText else t

/-- The `onError` closure's updater (src/App.tsx lines 174-180): set the
last message's `isStreaming` to false and replace its text by the apology
string exactly when it is empty (`lastMsg.text || "Sorry, ..."`). -/
def errorUpdater (s : ChatSession) : Option ChatSession :=
  match s.messages.getLast? with
  | none => none
  | some lastMsg =>
    some { s with messages := s.messages.dropLast ++
      [{ lastMsg with
          isStreaming := false
          text := if lastMsg.text = [] then apologyText else lastMsg.text }] }

/-- The full `onChunk` callback: applies `chunkUpdater` through the store
with the session id captured when `handleSendMessage` ran. -/
def onChunk (cid : Option JStr) (aid chunk : JStr) (st : ControllerState) :
    Option ControllerState :=
  (updateSessionAtF cid st.app (chunkUpdater aid chunk)).map fun a => { st with app := a }

/-- The full `onComplete` callback (src/App.tsx lines 160-168): clears the
generating flag and applies `completeUpdater` through the store. -/
def onComplete (cid : Option JStr) (st : ControllerState) : Option ControllerState :=
  (updateSessionAtF cid st.app completeUpdater).map fun a =>
    { st with isGenerating := false, app := a }

/-- The full `onError` callback (src/App.tsx lines 170-181): clears the
generating flag, sets the error banner from the failure's message, and
applies `errorUpdater` through the store. -/
def onError (cid : Option JStr) (msg : Option JStr) (st : ControllerState) :
    Option ControllerState :=
  (updateSessionAtF cid st.app errorUpdater).map fun a =>
    { st with isGenerating := false, error := some (errBanner msg), app := a }

/-- Modelled from the spec: the input collaborator (components/InputArea,
not under src/) forwards a send request to `handleSendMessage` only when
the draft has text or attachments; an empty send attempt (no text, no
attachments) is silently ignored (spec section 7, "Input guard"). -/
def sendRequest (st : ControllerState) (text : JStr) (atts : List Attachment)
    (uid aid : JStr) (now : Nat) : ControllerState × Bool :=
  if text = [] ∧ atts = [] then (st, false)
  else handleSendMessage st text atts uid aid now

/-!
Reference-aware model of the `onChunk` updater (src/App.tsx lines 151-158),
used to settle whether the update ever mutates a Message object contained
in the previous session value.  JavaScript `Message` objects live on a heap
and are handled by reference: `{ ...session }` copies the session object
but not the array it points to, `[...session.messages]` copies the array
but not the Message objects it points to, so `const lastMsg =
msgs[msgs.length - 1]` aliases the very Message object held by the previous
state's array, and `lastMsg.text += chunkText` updates that shared object
in place.
-/

/-- A heap-allocated Message object (the fields the updater touches). -/
structure MsgObj where
  id : JStr
  text : JStr
  isStreaming : Bool
deriving DecidableEq, Repr

/-- The message heap; a reference is an index into it. -/
abbrev MsgHeap := List MsgObj

/-- A session object holding references to its messages. -/
structure SessionObj where
  sid : JStr
  msgRefs : List Nat
deriving DecidableEq, Repr

/-- The `onChunk` updater on the reference model: `msgs` is a fresh array of
the same references; `lastMsg` is the shared reference to the last Message
object; on an id match the heap cell behind that reference is updated in
place (`lastMsg.text += chunkText`); the returned session object is fresh
but holds the same references. -/
def chunkUpdaterHeap (aid chunk : JStr) (h : MsgHeap) (s : SessionObj) :
    MsgHeap × SessionObj :=
  match s.msgRefs.getLast? with
  | none => (h, s)
  | some r =>
    match h.get? r with
    | none => (h, s)
    | some m =>
      if m.id = aid then
        (h.set r { m with text := m.text ++ chunk }, { s with msgRefs := s.msgRefs })
      else
        (h, s)

/-!
Reachability.  One constructor per handler of the App component; the
streaming-callback constructors take the closure-captured session id and
placeholder id as arbitrary parameters (so the modelled reachable set
includes every schedule of stale callbacks).  Sends carry the protocol
precondition stated by the spec — a single in-flight turn per session,
enforced in the source by the disabled-input convention: the target session
has no streaming message when the send fires.
-/

/-- The number of messages of a session with `isStreaming = true`. -/
def streamingCount (s : ChatSession) : Nat :=
  (s.messages.filter fun m => m.isStreaming).length

/-- States reachable from the initial state through the App's handlers. -/
inductive Reach : ControllerState → Prop where
  | init : Reach initialState
  | onboard (st : ControllerState) (name email : JStr) :
      Reach st → Reach (submitOnboarding st name email)
  | newSession (st : ControllerState) (newId : JStr) (now : Nat) :
      Reach st → Reach (createNewSession st newId now)
  | select (st : ControllerState) (sid : JStr) :
      Reach st → Reach (selectSession st sid)
  | model (st : ControllerState) (m : ModelId) :
      Reach st → Reach (selectModel st m)
  | sidebar (st : ControllerState) :
      Reach st → Reach (toggleSidebar st)
  | send (st : ControllerState) (text : JStr) (atts : List Attachment)
      (uid aid : JStr) (now : Nat) :
      Reach st →
      (∀ c s, st.app.currentSessionId = some c →
        lookupSession st.app.sessions c = some s → streamingCount s = 0) →
      Reach (handleSendMessage st text atts uid aid now).1
  | chunk (st st' : ControllerState) (cid : Option JStr) (aid c : JStr) :
      Reach st → onChunk cid aid c st = some st' → Reach st'
  | complete (st st' : ControllerState) (cid : Option JStr) :
      Reach st → onComplete cid st = some st' → Reach st'
  | failure (st st' : ControllerState) (cid : Option JStr) (msg : Option JStr) :
      Reach st → onError cid msg st = some st' → Reach st'

/-!  Store lemmas. -/

/-- Reading the record after a write: the written key yields the new value,
every other key is untouched. -/
theorem lookup_setSession (ss : List (JStr × ChatSession)) (k : JStr) (v : ChatSession)
    (c : JStr) :
    lookupSession (setSession ss k v) c = if k = c then some v else lookupSession ss c := by
  induction ss with
  | nil => simp [setSession, lookupSession]
  | cons p rest ih =>
    obtain ⟨k', v'⟩ := p
    by_cases hk : k' = k
    · subst hk
      by_cases hc : k' = c <;> simp [setSession, lookupSession, hc]
    · by_cases hc : k' = c
      · subst hc
        have : ¬ k = k' := fun h => hk h.symm
        simp [setSession, lookupSession, hk, this]
      · simp [setSession, lookupSession, hk, hc, ih]

/-- Writing back the value a key already holds leaves the record unchanged. -/
theorem setSession_lookup_self (ss : List (JStr × ChatSession)) (k : JStr) (v : ChatSession)
    (h : lookupSession ss k = some v) : setSession ss k v = ss := by
  induction ss with
  | nil => simp [lookupSession] at h
  | cons p rest ih =>
    obtain ⟨k', v'⟩ := p
    by_cases hk : k' = k
    · subst hk
      simp [lookupSession] at h
      simp [setSession, h]
    · simp [lookupSession, hk] at h
      simp [setSession, hk, ih h]

/-- Two consecutive writes at the same key collapse to the second. -/
theorem setSession_setSession (ss : List (JStr × ChatSession)) (k : JStr)
    (v1 v2 : ChatSession) :
    setSession (setSession ss k v1) k v2 = setSession ss k v2 := by
  induction ss with
  | nil => simp [setSession]
  | cons p rest ih =>
    obtain ⟨k', v'⟩ := p
    by_cases hk : k' = k
    · subst hk; simp [setSession]
    · simp [setSession, hk, ih]

/-!  Streaming-count lemmas. -/

/-- Appending one message adjusts the streaming count by its flag. -/
theorem streamingCount_append (s : ChatSession) (m : Message) :
    streamingCount { s with messages := s.messages ++ [m] } =
      streamingCount s + (if m.isStreaming then 1 else 0) := by
  simp only [streamingCount, List.filter_append, List.length_append]
  cases h : m.isStreaming <;> simp [h]

/-- Replacing the last message by one with the same streaming flag keeps the
streaming count. -/
theorem streamingCount_replaceLast (s : ChatSession) (last m : Message)
    (h : s.messages.getLast? = some last) (hm : m.isStreaming = last.isStreaming) :
    streamingCount { s with messages := s.messages.dropLast ++ [m] } = streamingCount s := by
  have hmsgs : s.messages = s.messages.dropLast ++ [last] :=
    (List.dropLast_append_getLast? last h).symm
  simp only [streamingCount]
  conv_rhs => rw [hmsgs]
  simp only [List.filter_append, List.length_append, List.filter_cons, hm]
  cases last.isStreaming <;> simp

/-- Replacing the last message by a non-streaming one cannot increase the
streaming count. -/
theorem streamingCount_replaceLast_le (s : ChatSession) (last m : Message)
    (h : s.messages.getLast? = some last) (hm : m.isStreaming = false) :
    streamingCount { s with messages := s.messages.dropLast ++ [m] } ≤ streamingCount s := by
  have hmsgs : s.messages = s.messages.dropLast ++ [last] :=
    (List.dropLast_append_getLast? last h).symm
  simp only [streamingCount]
  conv_rhs => rw [hmsgs]
  simp only [List.filter_append, List.length_append, List.filter_cons, hm]
  cases hl : last.isStreaming <;> simp

/-- The chunk updater never changes the streaming count. -/
theorem streamingCount_chunkUpdater (aid c : JStr) (s s2 : ChatSession)
    (h : chunkUpdater aid c s = some s2) : streamingCount s2 = streamingCount s := by
  unfold chunkUpdater at h
  cases hl : s.messages.getLast? with
  | none => rw [hl] at h; simp at h
  | some last =>
    rw [hl] at h
    by_cases hid : last.id = aid
    · simp only [hid, if_pos, Option.some.injEq] at h
      subst h
      exact streamingCount_replaceLast s last _ hl rfl
    · simp only [hid, if_neg, Option.some.injEq, if_false] at h
      subst h; rfl

/-- The completion updater never increases the streaming count. -/
theorem streamingCount_completeUpdater (s s2 : ChatSession)
    (h : completeUpdater s = some s2) : streamingCount s2 ≤ streamingCount s := by
  unfold completeUpdater at h
  cases hl : s.messages.getLast? with
  | none => rw [hl] at h; simp at h
  | some last =>
    rw [hl] at h
    simp only [Option.some.injEq] at h
    subst h
    exact streamingCount_replaceLast_le s last _ hl rfl

/-- The error updater never increases the streaming count. -/
theorem streamingCount_errorUpdater (s s2 : ChatSession)
    (h : errorUpdater s = some s2) : streamingCount s2 ≤ streamingCount s := by
  unfold errorUpdater at h
  cases hl : s.messages.getLast? with
  | none => rw [hl] at h; simp at h
  | some last =>
    rw [hl] at h
    simp only [Option.some.injEq] at h
    subst h
    exact streamingCount_replaceLast_le s last _ hl rfl

/-!  The per-session streaming invariant and its preservation. -/

/-- Every session stored in the mapping has at most one streaming message. -/
def InvS (ss : List (JStr × ChatSession)) : Prop :=
  ∀ k s, lookupSession ss k = some s → streamingCount s ≤ 1

theorem invS_setSession (ss : List (JStr × ChatSession)) (k : JStr) (v : ChatSession)
    (h : InvS ss) (hv : streamingCount v ≤ 1) : InvS (setSession ss k v) := by
  intro c s hc
  rw [lookup_setSession] at hc
  by_cases hkc : k = c
  · rw [if_pos hkc] at hc
    cases hc
    exact hv
  · rw [if_neg hkc] at hc
    exact h c s hc

theorem invS_updateSessionAtF (cid : Option JStr) (ap ap' : AppState)
    (u : ChatSession → Option ChatSession)
    (h : InvS ap.sessions)
    (hu : ∀ s s2, u s = some s2 → streamingCount s2 ≤ streamingCount s)
    (he : updateSessionAtF cid ap u = some ap') : InvS ap'.sessions := by
  cases cid with
  | none =>
    simp only [updateSessionAtF, Option.some.injEq] at he
    subst he; exact h
  | some c =>
    cases hl : lookupSession ap.sessions c with
    | none =>
      simp only [updateSessionAtF, hl, Option.some.injEq] at he
      subst he; exact h
    | some s =>
      cases hu2 : u s with
      | none =>
        simp only [updateSessionAtF, hl, hu2, Option.map_none'] at he
        exact Option.noConfusion he
      | some s2 =>
        simp only [updateSessionAtF, hl, hu2, Option.map_some', Option.some.injEq] at he
        subst he
        exact invS_setSession _ _ _ h (le_trans (hu s s2 hu2) (h c s hl))

theorem invS_updateSessionAt (cid : Option JStr) (ap : AppState)
    (u : ChatSession → ChatSession)
    (h : InvS ap.sessions)
    (hu : ∀ c s, cid = some c → lookupSession ap.sessions c = some s →
      streamingCount (u s) ≤ 1) :
    InvS (updateSessionAt cid ap u).sessions := by
  cases cid with
  | none => exact h
  | some c =>
    cases hs : lookupSession ap.sessions c with
    | none => simp only [updateSessionAt, hs]; exact h
    | some s =>
      simp only [updateSessionAt, hs]
      exact invS_setSession _ _ _ h (hu c s rfl hs)

/-- Reading a key after an update through the store: the updated session is
re-keyed by its own id; every other key is untouched. -/
theorem lookupSession_updateSessionAt (cid : Option JStr) (ap : AppState)
    (u : ChatSession → ChatSession) (k : JStr) :
    lookupSession (updateSessionAt cid ap u).sessions k =
      match cid with
      | none => lookupSession ap.sessions k
      | some c =>
        match lookupSession ap.sessions c with
        | none => lookupSession ap.sessions k
        | some s => if s.id = k then some (u s) else lookupSession ap.sessions k := by
  cases cid with
  | none => rfl
  | some c =>
    cases hs : lookupSession ap.sessions c with
    | none => simp [updateSessionAt, hs]
    | some s => simp [updateSessionAt, hs, lookup_setSession]

theorem streamingCount_appendUser (text : JStr) (um : Message) (now : Nat)
    (s : ChatSession) (hm : um.isStreaming = false) :
    streamingCount (appendUserUpdater text um now s) = streamingCount s := by
  simp [appendUserUpdater, streamingCount, List.filter_append, List.filter_cons, hm]

theorem streamingCount_appendPlaceholder (ph : Message) (s : ChatSession)
    (hm : ph.isStreaming = true) :
    streamingCount (appendPlaceholderUpdater ph s) = streamingCount s + 1 := by
  simp [appendPlaceholderUpdater, streamingCount, List.filter_append, List.filter_cons, hm]

theorem invS_handleSend (st : ControllerState) (text : JStr) (atts : List Attachment)
    (uid aid : JStr) (now : Nat)
    (h : InvS st.app.sessions)
    (hg : ∀ c s, st.app.currentSessionId = some c →
      lookupSession st.app.sessions c = some s → streamingCount s = 0) :
    InvS (handleSendMessage st text atts uid aid now).1.app.sessions := by
  cases hcur : st.app.currentSessionId with
  | none => simp only [handleSendMessage, hcur]; exact h
  | some c =>
    simp only [handleSendMessage, hcur]
    apply invS_updateSessionAt
    · apply invS_updateSessionAt _ _ _ h
      intro c' s hc' hs
      cases hc'
      rw [streamingCount_appendUser _ _ _ _ rfl]
      rw [hg c s hcur hs]
      exact Nat.zero_le 1
    · intro c' s' hc' hs'
      cases hc'
      cases hs : lookupSession st.app.sessions c with
      | none =>
        simp only [lookupSession_updateSessionAt, hs] at hs'
        exact Option.noConfusion hs'
      | some s =>
        simp only [lookupSession_updateSessionAt, hs] at hs'
        have hc0 : streamingCount s = 0 := hg c s hcur hs
        by_cases hid : s.id = c
        · rw [if_pos hid, Option.some.injEq] at hs'
          subst hs'
          rw [streamingCount_appendPlaceholder _ _ rfl,
            streamingCount_appendUser _ _ _ _ rfl, hc0]
        · rw [if_neg hid, Option.some.injEq] at hs'
          subst hs'
          rw [streamingCount_appendPlaceholder _ _ rfl, hc0]

theorem invS_onChunk (cid : Option JStr) (aid c : JStr) (st st' : ControllerState)
    (h : InvS st.app.sessions) (he : onChunk cid aid c st = some st') :
    InvS st'.app.sessions := by
  unfold onChunk at he
  cases ha : updateSessionAtF cid st.app (chunkUpdater aid c) with
  | none => rw [ha] at he; exact Option.noConfusion he
  | some a =>
    rw [ha] at he
    simp only [Option.map_some', Option.some.injEq] at he
    subst he
    exact invS_updateSessionAtF cid st.app a _ h
      (fun s s2 hu => le_of_eq (streamingCount_chunkUpdater aid c s s2 hu)) ha

theorem invS_onComplete (cid : Option JStr) (st st' : ControllerState)
    (h : InvS st.app.sessions) (he : onComplete cid st = some st') :
    InvS st'.app.sessions := by
  unfold onComplete at he
  cases ha : updateSessionAtF cid st.app completeUpdater with
  | none => rw [ha] at he; exact Option.noConfusion he
  | some a =>
    rw [ha] at he
    simp only [Option.map_some', Option.some.injEq] at he
    subst he
    exact invS_updateSessionAtF cid st.app a _ h
      (fun s s2 hu => streamingCount_completeUpdater s s2 hu) ha

theorem invS_onError (cid : Option JStr) (msg : Option JStr) (st st' : ControllerState)
    (h : InvS st.app.sessions) (he : onError cid msg st = some st') :
    InvS st'.app.sessions := by
  unfold onError at he
  cases ha : updateSessionAtF cid st.app errorUpdater with
  | none => rw [ha] at he; exact Option.noConfusion he
  | some a =>
    rw [ha] at he
    simp only [Option.map_some', Option.some.injEq] at he
    subst he
    exact invS_updateSessionAtF cid st.app a _ h
      (fun s s2 hu => streamingCount_errorUpdater s s2 hu) ha

/-- Every state reachable through the App's handlers keeps every stored
session at no more than one streaming message. -/
theorem invS_reach (st : ControllerState) (h : Reach st) : InvS st.app.sessions := by
  induction h with
  | init => intro k s hs; simp [initialState, lookupSession] at hs
  | onboard st name email _ ih =>
    unfold submitOnboarding
    split
    · exact ih
    · exact ih
  | newSession st newId now _ ih =>
    intro k s hs
    simp only [createNewSession] at hs
    rw [lookup_setSession] at hs
    by_cases hk : newId = k
    · rw [if_pos hk, Option.some.injEq] at hs
      subst hs
      simp [streamingCount]
    · rw [if_neg hk] at hs
      exact ih k s hs
  | select st sid _ ih => exact ih
  | model st m _ ih => exact ih
  | sidebar st _ ih => exact ih
  | send st text atts uid aid now _ hg ih =>
    exact invS_handleSend st text atts uid aid now ih hg
  | chunk st st' cid aid c _ he ih => exact invS_onChunk cid aid c st st' ih he
  | complete st st' cid _ he ih => exact invS_onComplete cid st st' ih he
  | failure st st' cid msg _ he ih => exact invS_onError cid msg st st' ih he

/-- Full characterisation of the synchronous part of a send when the
current id resolves to a session keyed by its own id: the error banner is
cleared, the generating flag raised, the target session gets the user
message and the placeholder appended in that order (the title rewritten on
a fresh session), and the generation capability is invoked. -/
theorem handleSend_eq (st : ControllerState) (c : JStr) (s : ChatSession)
    (text : JStr) (atts : List Attachment) (uid aid : JStr) (now : Nat)
    (hcur : st.app.currentSessionId = some c)
    (hs : lookupSession st.app.sessions c = some s)
    (hid : s.id = c) :
    handleSendMessage st text atts uid aid now =
      ({ st with
          error := none
          isGenerating := true
          app := { st.app with
            sessions := setSession st.app.sessions c
              { s with
                title := if s.messages.length = 0
                  then text.take 30 ++ (if 30 < text.length then "...".toList else [])
                  else s.title
                messages := s.messages ++
                  [userMessageOf text atts uid now, placeholderOf aid now]
                updatedAt := now } } }, true) := by
  simp only [handleSendMessage, hcur, updateSessionAt, hs, lookup_setSession,
    appendUserUpdater, appendPlaceholderUpdater, hid, eq_self_iff_true, if_true,
    setSession_setSession, List.append_assoc, List.cons_append, List.nil_append]

/-- A send leaves every session other than the target untouched. -/
theorem handleSend_frame (st : ControllerState) (c : JStr) (s : ChatSession)
    (text : JStr) (atts : List Attachment) (uid aid : JStr) (now : Nat) (k : JStr)
    (hcur : st.app.currentSessionId = some c)
    (hs : lookupSession st.app.sessions c = some s)
    (hid : s.id = c) (hk : k ≠ c) :
    lookupSession (handleSendMessage st text atts uid aid now).1.app.sessions k =
      lookupSession st.app.sessions k := by
  rw [handleSend_eq st c s text atts uid aid now hcur hs hid]
  rw [lookup_setSession, if_neg (fun h => hk h.symm)]

/-!  Concrete fixtures used by the witnesses and worked examples. -/

/-- A streaming placeholder created at time 5 with id "ai1". -/
def exPlaceholder : Message := placeholderOf "ai1".toList 5

/-- A session whose last (only) message is the in-flight placeholder. -/
def exSession : ChatSession :=
  { id := "s1".toList, title := "New Chat".toList
    messages := [exPlaceholder], updatedAt := 5 }

/-- A state with one in-flight turn on session "s1". -/
def exState : ControllerState :=
  { app :=
    { user := none
      currentSessionId := some "s1".toList
      sessions := [("s1".toList, exSession)]
      selectedModel := ModelId.flash
      sidebarOpen := false }
    isGenerating := true
    error := none }

/-- A state holding one fresh, empty session "s1". -/
def exFresh : ChatSession :=
  { id := "s1".toList, title := "New Chat".toList, messages := [], updatedAt := 0 }

/-- The state right after `createNewSession` produced `exFresh`. -/
def exFreshState : ControllerState :=
  { app :=
    { user := none
      currentSessionId := some "s1".toList
      sessions := [("s1".toList, exFresh)]
      selectedModel := ModelId.flash
      sidebarOpen := false }
    isGenerating := false
    error := none }

/-- C1: while a turn is in flight, a delta event locates the last message
of the stale-captured target session and appends the delta text to it if
and only if that message's id equals the placeholder's id; when a different
message is last the delta is a silent no-op leaving the state unchanged;
and deltas applied in the received order concatenate — "Hel" then "lo" on
an empty placeholder yield "Hello". -/
theorem chunk_append_iff_placeholder_last (st : ControllerState) (c : JStr)
    (s : ChatSession) (last : Message) (aid chunk : JStr)
    (hs : lookupSession st.app.sessions c = some s)
    (hid : s.id = c)
    (hlast : s.messages.getLast? = some last) :
    (last.id = aid →
      onChunk (some c) aid chunk st = some { st with app := { st.app with
        sessions := setSession st.app.sessions c
          { s with messages := s.messages.dropLast ++
              [{ last with text := last.text ++ chunk }] } } })
    ∧ (last.id ≠ aid → onChunk (some c) aid chunk st = some st)
    ∧ ((onChunk (some "s1".toList) "ai1".toList "Hel".toList exState).bind
         (onChunk (some "s1".toList) "ai1".toList "lo".toList)
       = some { exState with app := { exState.app with
           sessions := [("s1".toList,
             { exSession with
               messages := [{ exPlaceholder with text := "Hello".toList }] })] } }) := by
  refine ⟨?_, ?_, ?_⟩
  · intro hmatch
    simp only [onChunk, updateSessionAtF, hs, chunkUpdater, hlast, hmatch,
      eq_self_iff_true, if_true, hid, Option.map_some']
  · intro hmis
    simp only [onChunk, updateSessionAtF, hs, chunkUpdater, hlast, if_neg hmis,
      hid, Option.map_some']
    rw [setSession_lookup_self st.app.sessions c s hs]
  · rfl

/-- Witness for C1 at a concrete in-flight state. -/
theorem chunk_append_iff_placeholder_last_witness :
    lookupSession exState.app.sessions "s1".toList = some exSession
    ∧ exSession.id = "s1".toList
    ∧ exSession.messages.getLast? = some exPlaceholder
    ∧ onChunk (some "s1".toList) "ai1".toList "Hi".toList exState
        = some { exState with app := { exState.app with
            sessions := setSession exState.app.sessions "s1".toList
              { exSession with messages := exSession.messages.dropLast ++
                  [{ exPlaceholder with text := exPlaceholder.text ++ "Hi".toList }] } } } :=
  ⟨rfl, rfl, rfl,
    (chunk_append_iff_placeholder_last exState "s1".toList exSession exPlaceholder
      "ai1".toList "Hi".toList rfl rfl rfl).1 rfl⟩

/-- C2: in every reachable state — sends firing only under the
single-in-flight-turn-per-session precondition the spec states — every
stored session has at most one message with isStreaming = true: each send
appends exactly one streaming placeholder and both terminal transitions
drop the streaming flag. -/
theorem reachable_at_most_one_streaming (st : ControllerState) (h : Reach st)
    (k : JStr) (s : ChatSession)
    (hs : lookupSession st.app.sessions k = some s) :
    streamingCount s ≤ 1 :=
  invS_reach st h k s hs

/-- Witness for C2 on the state reached by creating one session. -/
theorem reachable_at_most_one_streaming_witness :
    Reach (createNewSession initialState "a".toList 0)
    ∧ lookupSession (createNewSession initialState "a".toList 0).app.sessions "a".toList
        = some { id := "a".toList, title := "New Chat".toList, messages := [], updatedAt := 0 }
    ∧ streamingCount
        { id := "a".toList, title := "New Chat".toList, messages := [], updatedAt := 0 } ≤ 1 :=
  ⟨Reach.newSession initialState "a".toList 0 Reach.init, rfl,
    reachable_at_most_one_streaming _ (Reach.newSession initialState "a".toList 0 Reach.init)
      "a".toList
      { id := "a".toList, title := "New Chat".toList, messages := [], updatedAt := 0 } rfl⟩

/-- C7: a send request in which the text is empty and the attachments list
is empty is silently ignored — no user message, no placeholder, the
generation capability is not invoked, the whole state is unchanged. -/
theorem empty_send_ignored (st : ControllerState) (uid aid : JStr) (now : Nat) :
    sendRequest st [] [] uid aid now = (st, false) := by
  simp [sendRequest]

/-- The state expected after sending "Hi" on `exFreshState` and completing
the turn with zero deltas: the user message and the placeholder appended,
the title rewritten to "Hi", the placeholder left with empty text and
isStreaming = false, the generating flag cleared. -/
def exZeroDeltaCompleted : ControllerState :=
  { app :=
    { user := none
      currentSessionId := some "s1".toList
      sessions := [("s1".toList,
        { id := "s1".toList, title := "Hi".toList
          messages := [userMessageOf "Hi".toList [] "u1".toList 7,
            { id := "ai1".toList, role := Role.model, text := [], attachments := []
              isStreaming := false, timestamp := 7 }]
          updatedAt := 7 })]
      selectedModel := ModelId.flash
      sidebarOpen := false }
    isGenerating := false
    error := none }

/-- C3: on terminal success the controller clears the global generating
flag and drops the last (placeholder) message's streaming flag while
leaving its text exactly as accumulated from the deltas; completing a turn
with zero deltas leaves the placeholder with empty text and
isStreaming = false. -/
theorem complete_clears_flag_preserves_text (st : ControllerState) (c : JStr)
    (s : ChatSession) (last : Message)
    (hs : lookupSession st.app.sessions c = some s)
    (hid : s.id = c)
    (hlast : s.messages.getLast? = some last) :
    onComplete (some c) st = some { st with
      isGenerating := false
      app := { st.app with
        sessions := setSession st.app.sessions c
          { s with messages := s.messages.dropLast ++
              [{ last with isStreaming := false }] } } }
    ∧ (onComplete (some "s1".toList)
         (handleSendMessage exFreshState "Hi".toList [] "u1".toList "ai1".toList 7).1
       = some exZeroDeltaCompleted) := by
  constructor
  · simp only [onComplete, updateSessionAtF, hs, completeUpdater, hlast, hid,
      Option.map_some']
  · rfl

/-- Witness for C3 at a concrete in-flight state. -/
theorem complete_clears_flag_preserves_text_witness :
    lookupSession exState.app.sessions "s1".toList = some exSession
    ∧ exSession.id = "s1".toList
    ∧ exSession.messages.getLast? = some exPlaceholder
    ∧ onComplete (some "s1".toList) exState = some { exState with
        isGenerating := false
        app := { exState.app with
          sessions := setSession exState.app.sessions "s1".toList
            { exSession with messages := exSession.messages.dropLast ++
                [{ exPlaceholder with isStreaming := false }] } } } :=
  ⟨rfl, rfl, rfl,
    (complete_clears_flag_preserves_text exState "s1".toList exSession exPlaceholder
      rfl rfl rfl).1⟩

/-- C4: on terminal error the controller clears the generating flag,
records a banner equal to the failure's message — or the fixed generic
fallback when the failure carries none — drops the last (placeholder)
message's streaming flag, and substitutes the fixed apology string as its
text if and only if no delta text had been accumulated; accumulated text is
preserved unchanged. -/
theorem error_banner_and_apology (st : ControllerState) (c : JStr)
    (s : ChatSession) (last : Message) (msg : Option JStr)
    (hs : lookupSession st.app.sessions c = some s)
    (hid : s.id = c)
    (hlast : s.messages.getLast? = some last) :
    onError (some c) msg st = some { st with
      isGenerating := false
      error := some (errBanner msg)
      app := { st.app with
        sessions := setSession st.app.sessions c
          { s with messages := s.messages.dropLast ++
              [{ last with
                  isStreaming := false
                  text := if last.text = [] then apologyText else last.text }] } } }
    ∧ (last.text = [] →
        (if last.text = [] then apologyText else last.text) = apologyText)
    ∧ (last.text ≠ [] →
        (if last.text = [] then apologyText else last.text) = last.text)
    ∧ errBanner none = fallbackText
    ∧ (∀ t : JStr, t ≠ [] → errBanner (some t) = t) := by
  refine ⟨?_, fun h => if_pos h, fun h => if_neg h, rfl, fun t ht => by simp [errBanner, ht]⟩
  simp only [onError, updateSessionAtF, hs, errorUpdater, hlast, hid, Option.map_some']

/-- Witness for C4: a failing turn with no accumulated text and a
message-less failure gets the apology text and the generic banner. -/
theorem error_banner_and_apology_witness :
    lookupSession exState.app.sessions "s1".toList = some exSession
    ∧ exSession.id = "s1".toList
    ∧ exSession.messages.getLast? = some exPlaceholder
    ∧ onError (some "s1".toList) none exState = some { exState with
        isGenerating := false
        error := some (errBanner none)
        app := { exState.app with
          sessions := setSession exState.app.sessions "s1".toList
            { exSession with messages := exSession.messages.dropLast ++
                [{ exPlaceholder with
                    isStreaming := false
                    text := if exPlaceholder.text = [] then apologyText
                      else exPlaceholder.text }] } } } :=
  ⟨rfl, rfl, rfl,
    (error_banner_and_apology exState "s1".toList exSession exPlaceholder none
      rfl rfl rfl).1⟩

/-- C5: a send on a session whose messages list is empty rewrites the title
to the text truncated at 30 characters followed by "..." when the text is
longer than 30 characters, and to the unmodified text otherwise; a send on
a non-empty session leaves the title unchanged; and every send leaves the
session non-empty, so the title is rewritten at most once after creation. -/
theorem send_title_truncation (st : ControllerState) (c : JStr) (s : ChatSession)
    (text : JStr) (atts : List Attachment) (uid aid : JStr) (now : Nat)
    (hcur : st.app.currentSessionId = some c)
    (hs : lookupSession st.app.sessions c = some s)
    (hid : s.id = c) :
    ∃ s2,
      lookupSession (handleSendMessage st text atts uid aid now).1.app.sessions c = some s2
      ∧ (s.messages = [] → 30 < text.length → s2.title = text.take 30 ++ "...".toList)
      ∧ (s.messages = [] → text.length ≤ 30 → s2.title = text)
      ∧ (s.messages ≠ [] → s2.title = s.title)
      ∧ s2.messages ≠ [] := by
  refine ⟨{ s with
      title := if s.messages.length = 0
        then text.take 30 ++ (if 30 < text.length then "...".toList else [])
        else s.title
      messages := s.messages ++ [userMessageOf text atts uid now, placeholderOf aid now]
      updatedAt := now }, ?_, ?_, ?_, ?_, ?_⟩
  · rw [handleSend_eq st c s text atts uid aid now hcur hs hid]
    rw [lookup_setSession, if_pos rfl]
  · intro h0 h30
    simp [h0, h30]
  · intro h0 hle
    simp [h0, Nat.not_lt.mpr hle, List.take_of_length_le hle]
  · intro hne
    simp [List.length_eq_zero, hne]
  · simp

/-- A 40-character text, long enough to trigger the title truncation. -/
def exLongText : JStr := "aaaaaaaaaaaaaaaaaaaaaaaaaaaaaaaaaaaaaaaa".toList

/-- Witness for C5: sending a 40-character text on a fresh session. -/
theorem send_title_truncation_witness :
    exFreshState.app.currentSessionId = some "s1".toList
    ∧ lookupSession exFreshState.app.sessions "s1".toList = some exFresh
    ∧ exFresh.id = "s1".toList
    ∧ (∃ s2,
        lookupSession (handleSendMessage exFreshState exLongText [] "u1".toList
          "ai1".toList 7).1.app.sessions "s1".toList = some s2
        ∧ (exFresh.messages = [] → 30 < exLongText.length →
            s2.title = exLongText.take 30 ++ "...".toList)
        ∧ (exFresh.messages = [] → exLongText.length ≤ 30 → s2.title = exLongText)
        ∧ (exFresh.messages ≠ [] → s2.title = exFresh.title)
        ∧ s2.messages ≠ []) :=
  ⟨rfl, rfl, rfl,
    send_title_truncation exFreshState "s1".toList exFresh exLongText [] "u1".toList
      "ai1".toList 7 rfl rfl rfl⟩

/-- C9: a send on an active session grows exactly that session's messages
list by two entries appended in order — the user message with role USER
carrying the sent text and attachments, then the assistant placeholder with
role MODEL, empty text and isStreaming = true — synchronously before the
generation capability is invoked; no other session's messages change. -/
theorem send_appends_user_then_placeholder (st : ControllerState) (c : JStr)
    (s : ChatSession) (text : JStr) (atts : List Attachment) (uid aid : JStr) (now : Nat)
    (hcur : st.app.currentSessionId = some c)
    (hs : lookupSession st.app.sessions c = some s)
    (hid : s.id = c) :
    (∃ s2,
      lookupSession (handleSendMessage st text atts uid aid now).1.app.sessions c = some s2
      ∧ s2.messages = s.messages ++ [userMessageOf text atts uid now, placeholderOf aid now])
    ∧ (∀ k, k ≠ c →
        lookupSession (handleSendMessage st text atts uid aid now).1.app.sessions k =
          lookupSession st.app.sessions k)
    ∧ (handleSendMessage st text atts uid aid now).2 = true
    ∧ (userMessageOf text atts uid now).role = Role.user
    ∧ (userMessageOf text atts uid now).text = text
    ∧ (userMessageOf text atts uid now).attachments = atts
    ∧ (placeholderOf aid now).role = Role.model
    ∧ (placeholderOf aid now).text = []
    ∧ (placeholderOf aid now).isStreaming = true := by
  refine ⟨⟨{ s with
      title := if s.messages.length = 0
        then text.take 30 ++ (if 30 < text.length then "...".toList else [])
        else s.title
      messages := s.messages ++ [userMessageOf text atts uid now, placeholderOf aid now]
      updatedAt := now }, ?_, rfl⟩, ?_, ?_, rfl, rfl, rfl, rfl, rfl, rfl⟩
  · rw [handleSend_eq st c s text atts uid aid now hcur hs hid]
    rw [lookup_setSession, if_pos rfl]
  · exact fun k hk => handleSend_frame st c s text atts uid aid now k hcur hs hid hk
  · rw [handleSend_eq st c s text atts uid aid now hcur hs hid]

/-- Witness for C9: sending "Hi" on the fresh one-session state. -/
theorem send_appends_user_then_placeholder_witness :
    exFreshState.app.currentSessionId = some "s1".toList
    ∧ lookupSession exFreshState.app.sessions "s1".toList = some exFresh
    ∧ exFresh.id = "s1".toList
    ∧ ((∃ s2,
        lookupSession (handleSendMessage exFreshState "Hi".toList [] "u1".toList
          "ai1".toList 7).1.app.sessions "s1".toList = some s2
        ∧ s2.messages = exFresh.messages ++
            [userMessageOf "Hi".toList [] "u1".toList 7, placeholderOf "ai1".toList 7])
      ∧ (∀ k, k ≠ "s1".toList →
          lookupSession (handleSendMessage exFreshState "Hi".toList [] "u1".toList
            "ai1".toList 7).1.app.sessions k = lookupSession exFreshState.app.sessions k)
      ∧ (handleSendMessage exFreshState "Hi".toList [] "u1".toList "ai1".toList 7).2 = true
      ∧ (userMessageOf "Hi".toList [] "u1".toList 7).role = Role.user
      ∧ (userMessageOf "Hi".toList [] "u1".toList 7).text = "Hi".toList
      ∧ (userMessageOf "Hi".toList [] "u1".toList 7).attachments = []
      ∧ (placeholderOf "ai1".toList 7).role = Role.model
      ∧ (placeholderOf "ai1".toList 7).text = []
      ∧ (placeholderOf "ai1".toList 7).isStreaming = true) :=
  ⟨rfl, rfl, rfl,
    send_appends_user_then_placeholder exFreshState "s1".toList exFresh "Hi".toList []
      "u1".toList "ai1".toList 7 rfl rfl rfl⟩

/-- C10: each streaming callback dereferences the last element of the
target session's messages list with no emptiness check — on an empty list
the dereference fails — yet every invocation reachable through the send
protocol is well-defined, because the send's two appends leave the target
session's messages list non-empty. -/
theorem callbacks_safe_on_nonempty (aid chunk : JStr) :
    (∀ s : ChatSession, s.messages = [] →
      chunkUpdater aid chunk s = none
      ∧ completeUpdater s = none
      ∧ errorUpdater s = none)
    ∧ (∀ s : ChatSession, s.messages ≠ [] →
      (chunkUpdater aid chunk s).isSome
      ∧ (completeUpdater s).isSome
      ∧ (errorUpdater s).isSome)
    ∧ (∀ (st : ControllerState) (c : JStr) (s : ChatSession) (text : JStr)
        (atts : List Attachment) (uid : JStr) (now : Nat),
        st.app.currentSessionId = some c →
        lookupSession st.app.sessions c = some s → s.id = c →
        ∃ s2,
          lookupSession (handleSendMessage st text atts uid aid now).1.app.sessions c
            = some s2
          ∧ s2.messages ≠ []) := by
  refine ⟨?_, ?_, ?_⟩
  · intro s h
    refine ⟨?_, ?_, ?_⟩ <;> simp [chunkUpdater, completeUpdater, errorUpdater, h]
  · intro s h
    cases hl : s.messages.getLast? with
    | none => exact absurd (List.getLast?_eq_none_iff.mp hl) h
    | some m =>
      refine ⟨?_, ?_, ?_⟩ <;>
        simp only [chunkUpdater, completeUpdater, errorUpdater, hl]
      · split <;> rfl
      · rfl
      · rfl
  · intro st c s text atts uid now hcur hs hid
    refine ⟨{ s with
        title := if s.messages.length = 0
          then text.take 30 ++ (if 30 < text.length then "...".toList else [])
          else s.title
        messages := s.messages ++ [userMessageOf text atts uid now, placeholderOf aid now]
        updatedAt := now }, ?_, by simp⟩
    rw [handleSend_eq st c s text atts uid aid now hcur hs hid]
    rw [lookup_setSession, if_pos rfl]

/-- Witness for C10: the callbacks are defined on the non-empty `exSession`
and fail on the emptied variant of it. -/
theorem callbacks_safe_on_nonempty_witness :
    ({ exSession with messages := [] } : ChatSession).messages = []
    ∧ chunkUpdater "ai1".toList "Hi".toList { exSession with messages := [] } = none
    ∧ exSession.messages ≠ []
    ∧ (chunkUpdater "ai1".toList "Hi".toList exSession).isSome
    ∧ (completeUpdater exSession).isSome
    ∧ (errorUpdater exSession).isSome :=
  ⟨rfl,
    ((callbacks_safe_on_nonempty "ai1".toList "Hi".toList).1
      { exSession with messages := [] } rfl).1,
    by decide,
    ((callbacks_safe_on_nonempty "ai1".toList "Hi".toList).2.1 exSession (by decide)).1,
    ((callbacks_safe_on_nonempty "ai1".toList "Hi".toList).2.1 exSession (by decide)).2.1,
    ((callbacks_safe_on_nonempty "ai1".toList "Hi".toList).2.1 exSession (by decide)).2.2⟩

/-- C6 counterexample: selecting an id that keys no session is NOT a no-op
— src/App.tsx line 247 sets currentSessionId unconditionally, with no
membership check — so the state changes and a reachable state carries a
current id that keys no entry in the mapping. -/
theorem select_missing_id_changes_state :
    lookupSession (createNewSession initialState "a".toList 0).app.sessions
      "zzz".toList = none
    ∧ selectSession (createNewSession initialState "a".toList 0) "zzz".toList
        ≠ createNewSession initialState "a".toList 0
    ∧ (selectSession (createNewSession initialState "a".toList 0)
        "zzz".toList).app.currentSessionId = some "zzz".toList
    ∧ Reach (selectSession (createNewSession initialState "a".toList 0) "zzz".toList)
    ∧ lookupSession (selectSession (createNewSession initialState "a".toList 0)
        "zzz".toList).app.sessions "zzz".toList = none := by
  refine ⟨rfl, ?_, rfl, Reach.select _ _ (Reach.newSession _ _ _ Reach.init), rfl⟩
  decide

/-- C6 (amended): selectSession(id) sets currentSessionId to id
unconditionally — whether or not id keys an entry of sessions — and changes
nothing else; a dangling current id is tolerated downstream, since the
store update no-ops when the current id does not resolve. -/
theorem select_sets_id_unconditionally (st : ControllerState) (sid : JStr) :
    (selectSession st sid).app.currentSessionId = some sid
    ∧ (selectSession st sid).app.sessions = st.app.sessions
    ∧ (selectSession st sid).app.user = st.app.user
    ∧ (selectSession st sid).app.selectedModel = st.app.selectedModel
    ∧ (selectSession st sid).app.sidebarOpen = st.app.sidebarOpen
    ∧ (selectSession st sid).isGenerating = st.isGenerating
    ∧ (selectSession st sid).error = st.error
    ∧ (lookupSession st.app.sessions sid = none → ∀ u,
        updateCurrentSession (selectSession st sid).app u = (selectSession st sid).app) := by
  refine ⟨rfl, rfl, rfl, rfl, rfl, rfl, rfl, ?_⟩
  intro h u
  simp [updateCurrentSession, updateSessionAt, selectSession, h]

/-- Witness for the amended C6 at the initial state and a missing id. -/
theorem select_sets_id_unconditionally_witness :
    lookupSession initialState.app.sessions "zzz".toList = none
    ∧ (∀ u, updateCurrentSession (selectSession initialState "zzz".toList).app u
        = (selectSession initialState "zzz".toList).app) :=
  ⟨rfl, (select_sets_id_unconditionally initialState "zzz".toList).2.2.2.2.2.2.2 rfl⟩

/-- The message heap before the delta: one Message object with id "ai1",
empty text and isStreaming = true, and a session object referencing it —
the configuration right after the placeholder append. -/
def exHeap0 : MsgHeap := [{ id := "ai1".toList, text := [], isStreaming := true }]

/-- The previous session value, holding a reference to message object 0. -/
def exSessionObj : SessionObj := { sid := "s1".toList, msgRefs := [0] }

/-- C8 counterexample: the onChunk updater mutates a contained Message
object of the previous session value in place.  Before the delta the object
behind reference 0 has empty text; the previous session value keeps
referencing object 0; after `lastMsg.text += chunkText` runs, reading that
same reference through the heap yields the appended text — so the update
does not leave the previous session value's contained Message objects
unmutated. -/
theorem chunk_mutates_shared_message_object :
    (exHeap0.get? 0).map MsgObj.text = some []
    ∧ exSessionObj.msgRefs.getLast? = some 0
    ∧ (((chunkUpdaterHeap "ai1".toList "Hi".toList exHeap0 exSessionObj).1.get? 0).map
        MsgObj.text = some "Hi".toList) := by
  refine ⟨rfl, rfl, ?_⟩
  decide

/-- C8 (amended): updateCurrentSession(updater) is a no-op when no session
is active or the current id does not resolve; otherwise it replaces exactly
the current session's entry in the mapping with updater(snapshot), leaving
every other session and every other AppState field unchanged.  (The new
ChatSession value shares its Message objects with the previous one, and the
streaming updaters mutate the shared last Message in place — see the
counterexample — so no in-place-immutability of contained Messages is
claimed here.) -/
theorem updateCurrentSession_replaces_and_frames :
    (∀ (ap : AppState) (u : ChatSession → ChatSession),
      ap.currentSessionId = none → updateCurrentSession ap u = ap)
    ∧ (∀ (ap : AppState) (c : JStr) (u : ChatSession → ChatSession),
      ap.currentSessionId = some c → lookupSession ap.sessions c = none →
      updateCurrentSession ap u = ap)
    ∧ (∀ (ap : AppState) (c : JStr) (s : ChatSession) (u : ChatSession → ChatSession),
      ap.currentSessionId = some c → lookupSession ap.sessions c = some s → s.id = c →
      lookupSession (updateCurrentSession ap u).sessions c = some (u s)
      ∧ (∀ k, k ≠ c → lookupSession (updateCurrentSession ap u).sessions k
          = lookupSession ap.sessions k)
      ∧ (updateCurrentSession ap u).currentSessionId = ap.currentSessionId
      ∧ (updateCurrentSession ap u).user = ap.user
      ∧ (updateCurrentSession ap u).selectedModel = ap.selectedModel
      ∧ (updateCurrentSession ap u).sidebarOpen = ap.sidebarOpen) := by
  refine ⟨?_, ?_, ?_⟩
  · intro ap u h
    simp [updateCurrentSession, updateSessionAt, h]
  · intro ap c u h hl
    simp [updateCurrentSession, updateSessionAt, h, hl]
  · intro ap c s u h hl hid
    have hrw : updateCurrentSession ap u =
        { ap with sessions := setSession ap.sessions c (u s) } := by
      simp [updateCurrentSession, updateSessionAt, h, hl, hid]
    rw [hrw]
    refine ⟨?_, ?_, rfl, rfl, rfl, rfl⟩
    · rw [lookup_setSession, if_pos rfl]
    · intro k hk
      rw [lookup_setSession, if_neg (fun hh => hk hh.symm)]

/-- Witness for the amended C8: the no-op branch at the initial state and
the replacement branch on the one-session state. -/
theorem updateCurrentSession_replaces_and_frames_witness :
    initialState.app.currentSessionId = none
    ∧ updateCurrentSession initialState.app (fun s => s) = initialState.app
    ∧ exState.app.currentSessionId = some "s1".toList
    ∧ lookupSession exState.app.sessions "s1".toList = some exSession
    ∧ exSession.id = "s1".toList
    ∧ lookupSession (updateCurrentSession exState.app
        (fun s => { s with title := "T".toList })).sessions "s1".toList
      = some { exSession with title := "T".toList } :=
  ⟨rfl,
    updateCurrentSession_replaces_and_frames.1 initialState.app (fun s => s) rfl,
    rfl, rfl, rfl,
    (updateCurrentSession_replaces_and_frames.2.2 exState.app "s1".toList exSession
      (fun s => { s with title := "T".toList }) rfl rfl rfl).1⟩
